import Mathlib

/-
Verification of the SFTP-to-S3 translation server against its specification.

The definitions below are a shallow embedding of the JavaScript source:
  * config/config.js          : userBasePath config
  * config/access-control.js  : isPathAllowed
  * src/server.js             : SFTPS3Server private methods and SFTP handlers

String operations are implemented structurally over the underlying character
lists so that every definition reduces inside the kernel.
-/

-- ---------------------------------------------------------------------------
-- String utilities mirroring the JavaScript string primitives
-- ---------------------------------------------------------------------------

/-- JavaScript s.startsWith(pre). -/
def jsStartsWith (s pre : String) : Bool :=
  List.isPrefixOf pre.data s.data

/-- JavaScript s.endsWith(suf). -/
def jsEndsWith (s suf : String) : Bool :=
  List.isSuffixOf suf.data s.data

/-- Whether the first character list occurs contiguously inside the second. -/
def infixOfChars : List Char → List Char → Bool
  | sub, [] => sub.isEmpty
  | sub, c :: rest => List.isPrefixOf sub (c :: rest) || infixOfChars sub rest

/-- JavaScript s.includes(sub). -/
def jsContains (s sub : String) : Bool :=
  infixOfChars sub.data s.data

/-- JavaScript s.substring(n) (start index only). -/
def jsSubstringFrom (s : String) (n : Nat) : String :=
  ⟨s.data.drop n⟩

/-- JavaScript s.substring(0, s.length - n). -/
def jsDropRight (s : String) (n : Nat) : String :=
  ⟨s.data.take (s.data.length - n)⟩

/-- JavaScript s.length (character count; sources only use ASCII keys). -/
def jsLength (s : String) : Nat :=
  s.data.length

/-- JavaScript s.toLowerCase() for the ASCII range used by the server. -/
def jsToLower (s : String) : String :=
  ⟨s.data.map Char.toLower⟩

/-- Splitting a character list at a separator, as JavaScript s.split(sep). -/
def splitChars (sep : Char) : List Char → List (List Char)
  | [] => [[]]
  | c :: rest =>
    if c = sep then [] :: splitChars sep rest
    else
      match splitChars sep rest with
      | h :: t => (c :: h) :: t
      | [] => [[c]]

/-- JavaScript s.split(sep) for a one-character separator. -/
def jsSplitOn (s : String) (sep : Char) : List String :=
  (splitChars sep s.data).map (fun l => ⟨l⟩)

/-- Replace every occurrence of two consecutive backslashes by a slash
(the JavaScript regex replace of double backslashes, scanned left to right). -/
def replDouble : List Char → List Char
  | '\\' :: '\\' :: rest => '/' :: replDouble rest
  | c :: rest => c :: replDouble rest
  | [] => []

/-- Replace every backslash-anychar-backslash run by a slash
(the JavaScript regex replace of a backslash, any character, backslash). -/
def replBackAnyBack : List Char → List Char
  | '\\' :: _x :: '\\' :: rest => '/' :: replBackAnyBack rest
  | c :: rest => c :: replBackAnyBack rest
  | [] => []

/-- Replace every backslash by a slash. -/
def replBack (l : List Char) : List Char :=
  l.map (fun c => if c = '\\' then '/' else c)

-- ---------------------------------------------------------------------------
-- Node path.normalize (posix variant), used by _mapKey and _resolvePath
-- ---------------------------------------------------------------------------

/-- Segment normalization of Node path.posix.normalize: drops empty and dot
segments, resolves dotdot segments, and keeps dotdot above the root only for
relative paths. The accumulator holds the kept segments in reverse. -/
def normSegs (isAbs : Bool) : List String → List String → List String
  | [], acc => acc.reverse
  | s :: rest, acc =>
    if s = "" ∨ s = "." then normSegs isAbs rest acc
    else if s = ".." then
      match acc with
      | [] => if isAbs then normSegs isAbs rest [] else normSegs isAbs rest [".."]
      | t :: acc2 =>
        if t = ".." then normSegs isAbs rest (".." :: t :: acc2)
        else normSegs isAbs rest acc2
    else normSegs isAbs rest (s :: acc)

/-- Join path segments with slashes. -/
def joinSegs : List String → String
  | [] => ""
  | [s] => s
  | s :: rest => s ++ "/" ++ joinSegs rest

/-- Node path.posix.normalize. -/
def pathNormalize (p : String) : String :=
  if p = "" then "."
  else
    if joinSegs (normSegs (jsStartsWith p "/") (jsSplitOn p '/') []) = "" then
      if jsStartsWith p "/" then "/"
      else if jsEndsWith p "/" then "./" else "."
    else
      if jsStartsWith p "/" then
        "/" ++ joinSegs (normSegs (jsStartsWith p "/") (jsSplitOn p '/') []) ++
          (if jsEndsWith p "/" then "/" else "")
      else
        joinSegs (normSegs (jsStartsWith p "/") (jsSplitOn p '/') []) ++
          (if jsEndsWith p "/" then "/" else "")

-- ---------------------------------------------------------------------------
-- Access control (config/access-control.js)
-- ---------------------------------------------------------------------------

/-- accessControl.defaultPaths. -/
def defaultPaths : List String := ["/", "/ledgers", "/invoices"]

/-- accessControl.allowedPaths lookup with fallback to defaultPaths: only the
user named user has an explicit entry in the configuration object. -/
def allowedPathsFor (username : String) : List String :=
  if username = "user" then ["/", "/user", "/ledgers", "/invoices"]
  else defaultPaths

/-- accessControl.isPathAllowed(username, path). -/
def isPathAllowed (username path : String) : Bool :=
  let normalizedPath := if jsStartsWith path "/" then path else "/" ++ path
  if (allowedPathsFor username).contains normalizedPath then true
  else if (allowedPathsFor username).any
      (fun a => jsStartsWith normalizedPath (a ++ "/") || normalizedPath == a) then true
  else if normalizedPath = "/" ++ username ∨
      jsStartsWith normalizedPath ("/" ++ username ++ "/") then true
  else if normalizedPath = "/ledgers" ∨ normalizedPath = "/invoices" ∨
      jsStartsWith normalizedPath "/ledgers/" ∨ jsStartsWith normalizedPath "/invoices/" then true
  else if normalizedPath ≠ "/" ∧ jsStartsWith normalizedPath "/" ∧
      (jsSplitOn normalizedPath '/').length = 2 then true
  else false

/-- server._isFileTypeAllowed(filename): PDF-only rule for the ledgers and
invoices subtrees. -/
def isFileTypeAllowed (filename : String) : Bool :=
  if jsStartsWith (jsToLower filename) "/ledgers/" ∨
      jsStartsWith (jsToLower filename) "/invoices/" ∨
      jsToLower filename = "/ledgers" ∨ jsToLower filename = "/invoices" then
    if ¬ jsEndsWith (jsToLower filename) ".pdf" then false
    else if jsToLower filename = "/ledgers" ∨ jsToLower filename = "/invoices" ∨
        jsToLower filename = "/ledgers/" ∨ jsToLower filename = "/invoices/" ∨
        jsEndsWith (jsToLower filename) "/ledgers/" ∨
        jsEndsWith (jsToLower filename) "/invoices/" then false
    else true
  else true

-- ---------------------------------------------------------------------------
-- Path mapping (server._mapKey)
-- ---------------------------------------------------------------------------

/-- The backslash replace chain at the start of _mapKey. -/
def mapSlashes (filename : String) : String :=
  ⟨replBack (replBackAnyBack (replDouble filename.data))⟩

/-- Prefix a slash when missing, as _mapKey does after normalization. -/
def ensureLeadingSlash (p : String) : String :=
  if jsStartsWith p "/" then p else "/" ++ p

/-- The fully normalized virtual path computed inside _mapKey: backslash
replacement, path.normalize, one more backslash replacement, leading slash. -/
def mapKeyPath (filename : String) : String :=
  ensureLeadingSlash ⟨replBack (pathNormalize (mapSlashes filename)).data⟩

/-- server._mapKey(userPath, filename). The ledgers and invoices alias branch
returns the same concatenation as the default branch, as in the source. -/
def mapKey (userPath filename : String) : String :=
  if mapKeyPath filename = "/ledgers" ∨ mapKeyPath filename = "/invoices" then
    if 2 ≤ (jsSplitOn (if userPath = "" then "users" else userPath) '/').length then
      (if userPath = "" then "users" else userPath) ++ mapKeyPath filename
    else
      (if userPath = "" then "users" else userPath) ++ mapKeyPath filename
  else
    (if userPath = "" then "users" else userPath) ++ mapKeyPath filename

-- ---------------------------------------------------------------------------
-- Wire protocol data
-- ---------------------------------------------------------------------------

/-- SFTP status codes used by the server. -/
inductive SftpStatus
  | ok
  | eof
  | noSuchFile
  | permissionDenied
  | failure
  | badMessage
  | noConnection
  | connectionLost
  | opUnsupported
deriving DecidableEq

/-- Numeric wire value of each status code. -/
def SftpStatus.code : SftpStatus → Nat
  | .ok => 0
  | .eof => 1
  | .noSuchFile => 2
  | .permissionDenied => 3
  | .failure => 4
  | .badMessage => 5
  | .noConnection => 6
  | .connectionLost => 7
  | .opUnsupported => 8

/-- Store operations the handlers can issue against the object store. -/
inductive StoreCall
  | putObject (key : String) (body : List Nat) (contentLength : Nat)
  | deleteObject (key : String)
  | copyObject (srcKey dstKey : String)
  | headObject (key : String)
  | listObjects (keyPrefix : String)
  | getObject (key : String) (rangeStart rangeLen : Nat)
deriving DecidableEq

/-- Events emitted on the server event bus. -/
inductive Event
  | protectedDeletionBlocked (username path : String)
  | protectedRenameBlocked (username oldPath newPath : String)
  | dirCreationBlocked (username path : String)
  | dirDeletionBlocked (username path : String)
  | uploadErrorEvent (path msg username : String)
  | fileUploaded (path username : String)
  | fileDeleted (path username : String)
  | fileRenamed (path oldPath username : String)
  | fileDownloaded (path username : String)
deriving DecidableEq

/-- Outcome of one SFTP request: the status sent to the client, the events
emitted, and the store calls issued. -/
structure SftpOutcome where
  status : SftpStatus
  events : List Event
  calls : List StoreCall
deriving DecidableEq

-- ---------------------------------------------------------------------------
-- Authentication (server._authenticateUser)
-- ---------------------------------------------------------------------------

/-- Result of a HEAD probe against the store. -/
inductive HeadResult
  | found
  | notFound
  | otherError
deriving DecidableEq

/-- server._authenticateUser(username, password). Returns the boolean result
and the credential probe key sent to the store, when one was constructed at
all. An absent or empty username or password is falsy in the source and is
rejected before the key is built. -/
def authenticateUser (username password : String) (store : String → HeadResult) :
    Bool × Option String :=
  if username = "" ∨ password = "" then (false, none)
  else
    match store ("auth/" ++ username ++ "_" ++ password) with
    | .found => (true, some ("auth/" ++ username ++ "_" ++ password))
    | .notFound => (false, some ("auth/" ++ username ++ "_" ++ password))
    | .otherError => (false, some ("auth/" ++ username ++ "_" ++ password))

-- ---------------------------------------------------------------------------
-- Upload pipeline (WRITE buffering, _uploadToS3, _closeFile)
-- ---------------------------------------------------------------------------

/-- The single PUT command built by _uploadToS3. -/
structure StorePut where
  key : String
  body : List Nat
  contentLength : Nat
deriving DecidableEq

/-- What _uploadToS3 does once the write stream ends: the PUT it issues, if
any, and the upload error message recorded on the handle and carried by the
emitted upload-error event, if any. -/
structure UploadOutcome where
  put : Option StorePut
  uploadError : Option String
deriving DecidableEq

/-- server._uploadToS3 stream end handler. chunks are the WRITE payloads in
receipt order; the buffer is their concatenation. -/
def uploadFinalize (chunks : List (List Nat)) (fullname : String) : UploadOutcome :=
  if (chunks.flatten).length = 0 then
    ⟨none, some "Empty files are not allowed"⟩
  else if (jsContains (jsToLower fullname) "/ledgers/" ∨
      jsContains (jsToLower fullname) "/invoices/") ∧
      ¬ jsEndsWith (jsToLower fullname) ".pdf" then
    ⟨none, some "Only PDF files are allowed in ledgers and invoices directories"⟩
  else
    ⟨some ⟨fullname, chunks.flatten, (chunks.flatten).length⟩, none⟩

/-- The status server._closeFile eventually sends for a write handle: OK only
once uploadComplete is set (the PUT resolved), FAILURE once uploadError is set
(validation failure or a failed PUT). -/
def closeWriteStatus (o : UploadOutcome) (putOk : Bool) : SftpStatus :=
  match o.put with
  | none => .failure
  | some _ => if putOk then .ok else .failure

-- ---------------------------------------------------------------------------
-- Download pipeline (READ handler and _readFileFromS3)
-- ---------------------------------------------------------------------------

/-- Per-handle read state: recorded object size and the readAtEOF flag. -/
structure ReadState where
  size : Nat
  read : Bool
deriving DecidableEq

/-- Response kinds a READ can produce. -/
inductive ReadResp
  | eof
  | dataResp
  | failResp
deriving DecidableEq

/-- The length clamp of the READ handler. -/
def clampLen (size offset length : Nat) : Nat :=
  if size < offset + length then size - offset else length

/-- One READ request on an open read handle: the new handle state, the
response, and the ranged GET issued, if any. getOk tells whether the store GET
succeeds; the state update happens before the GET is dispatched. -/
def readStep (key : String) (st : ReadState) (offset length : Nat) (getOk : Bool) :
    ReadState × ReadResp × Option StoreCall :=
  if st.read then (st, .eof, none)
  else if st.size ≤ offset then (st, .eof, none)
  else if clampLen st.size offset length = 0 then (st, .eof, none)
  else
    ((if st.size ≤ offset + clampLen st.size offset length then ⟨st.size, true⟩ else st),
     (if getOk then .dataResp else .failResp),
     some (.getObject key offset (clampLen st.size offset length)))

-- ---------------------------------------------------------------------------
-- Namespace view (server._processDirectoryListings, _listDirectoryContents)
-- ---------------------------------------------------------------------------

/-- One object returned by a store LIST: its key, its size, and the IsDir flag
the listing code attaches (absent, hence false, on raw LIST results). -/
structure S3Obj where
  key : String
  size : Nat
  isDir : Bool := false
deriving DecidableEq

/-- The body of the filter callback of _processDirectoryListings for the
element c, evaluated against the current state arr of the listing array
(the callback mutates elements of the array it iterates over). Returns the
kept, possibly rewritten, element, or none when the callback filters it out. -/
def processOne (fullname : String) (arr : List S3Obj) (c : S3Obj) : Option S3Obj :=
  let f := ensureLeadingSlash (jsSubstringFrom c.key (jsLength fullname))
  if f = "/.dir" then none
  else
    let parts := jsSplitOn f '/'
    if parts.headD "" ≠ "" then none
    else if parts.length = 3 ∧ parts.getD 2 "" = ".directory" then
      if parts.getD 1 "" = "" then none
      else some { c with key := jsDropRight c.key 11, isDir := true }
    else if parts.length = 2 then some c
    else if 2 < parts.length ∧ arr.any (fun o =>
        (o.key != c.key) && jsStartsWith o.key (fullname ++ "/" ++ parts.getD 1 "" ++ "/")) then
      some { c with key := fullname ++ "/" ++ parts.getD 1 "", isDir := true }
    else if arr.any (fun o => o.key == c.key ++ "/.directory") then
      some { c with isDir := true }
    else none

/-- The filter loop of _processDirectoryListings from index i on: the callback
for index i sees the mutations already applied to earlier elements, and its
own mutation is visible to later iterations. fuel is the number of remaining
indices. -/
def processFrom (fullname : String) (arr : List S3Obj) (i : Nat) : Nat → List S3Obj
  | 0 => []
  | fuel + 1 =>
    if h : i < arr.length then
      match processOne fullname arr (arr.get ⟨i, h⟩) with
      | some c2 => c2 :: processFrom fullname (arr.set i c2) (i + 1) fuel
      | none => processFrom fullname arr (i + 1) fuel
    else []

/-- server._processDirectoryListings(contents, fullname). -/
def processDirectoryListings (contents : List S3Obj) (fullname : String) : List S3Obj :=
  processFrom fullname contents 0 contents.length

/-- One entry of a READDIR reply, as built by _listDirectoryContents: the
display filename and the mode and size placed in its attributes (mode 493 is
octal 755, mode 420 is octal 644). -/
structure Entry where
  filename : String
  mode : Nat
  size : Nat
deriving DecidableEq

/-- The entry _listDirectoryContents builds from one processed listing. -/
def entryOf (fullname : String) (l : S3Obj) : Entry :=
  let f0 := jsSubstringFrom l.key (jsLength fullname)
  let f1 := if jsStartsWith f0 "/" then jsSubstringFrom f0 1 else f0
  let f2 := if jsEndsWith f1 "/" then jsDropRight f1 1 else f1
  { filename := f2,
    mode := if l.isDir then 493 else 420,
    size := if l.isDir then 0 else l.size }

/-- The duplicate-removal loop of _listDirectoryContents: an entry whose
filename was already seen is dropped, so the first entry with a given display
name survives. -/
def dedupAux (seen : List String) : List Entry → List Entry
  | [] => []
  | e :: rest =>
    if seen.contains e.filename then dedupAux seen rest
    else e :: dedupAux (e.filename :: seen) rest

/-- De-duplication on display name, keeping first occurrences. -/
def dedupEntries (l : List Entry) : List Entry :=
  dedupAux [] l

/-- The three synthetic entries the root branch of _listDirectoryContents
builds: the username and the ledgers and invoices folders, all directories. -/
def rootEntries (username : String) : List Entry :=
  [⟨username, 493, 0⟩, ⟨"ledgers", 493, 0⟩, ⟨"invoices", 493, 0⟩]

/-- The entry list _listDirectoryContents sends: the mapped, de-duplicated
entries of the stored listings, except that a handle whose prefix is the empty
string gets the three synthetic root entries instead (the source computes the
mapped entries first and then overwrites them in that branch; the result is
the same). -/
def listDirEntries (fullname username : String) (listings : List S3Obj) : List Entry :=
  if fullname = "" then rootEntries username
  else dedupEntries (listings.map (entryOf fullname))

/-- OPENDIR followed by READDIR: the OPENDIR handler maps the directory path
with _mapKey and stores the processed LIST results on the handle; the first
READDIR renders them with _listDirectoryContents. contents are the objects the
store LIST returned for the mapped prefix. -/
def readdirEntries (username userPath dirPath : String) (contents : List S3Obj) :
    List Entry :=
  listDirEntries (mapKey userPath dirPath) username
    (processDirectoryListings contents (mapKey userPath dirPath))

-- ---------------------------------------------------------------------------
-- Request router handlers (REMOVE, RENAME, MKDIR, RMDIR, OPEN, OPENDIR, STAT)
-- ---------------------------------------------------------------------------

/-- The protected-path test shared by the REMOVE and RENAME handlers. The two
middle literals hardcode the path segment user; they are not built from the
session username. -/
def isProtectedPath (p : String) : Bool :=
  p = "/ledgers" ∨ p = "/invoices" ∨
  p = "/user/ledgers" ∨ p = "/user/invoices" ∨
  jsEndsWith p "/ledgers/.directory" ∨ jsEndsWith p "/invoices/.directory" ∨
  jsEndsWith p "/user/ledgers/.directory" ∨ jsEndsWith p "/user/invoices/.directory"

/-- The REMOVE handler: protected check, then access control, then a DELETE
against the mapped key (_deleteFileFromS3). deleteOk tells whether the store
DELETE succeeds. -/
def removeHandler (username userPath filePath : String) (deleteOk : Bool) : SftpOutcome :=
  if isProtectedPath filePath then
    ⟨.permissionDenied, [.protectedDeletionBlocked username filePath], []⟩
  else if ¬ isPathAllowed username filePath then
    ⟨.permissionDenied, [], []⟩
  else if deleteOk then
    ⟨.ok, [.fileDeleted (mapKey userPath filePath) username],
      [.deleteObject (mapKey userPath filePath)]⟩
  else
    ⟨.failure, [], [.deleteObject (mapKey userPath filePath)]⟩

/-- The RENAME handler: protected check on the old path, then straight to
_renameInS3 (COPY then DELETE); the handler performs no access-control check.
copyOk and deleteOk tell whether the two store calls succeed. -/
def renameHandler (username userPath oldPath newPath : String)
    (copyOk deleteOk : Bool) : SftpOutcome :=
  if isProtectedPath oldPath then
    ⟨.permissionDenied, [.protectedRenameBlocked username oldPath newPath], []⟩
  else if ¬ copyOk then
    ⟨.failure, [],
      [.copyObject (mapKey userPath oldPath) (mapKey userPath newPath)]⟩
  else if ¬ deleteOk then
    ⟨.failure, [],
      [.copyObject (mapKey userPath oldPath) (mapKey userPath newPath),
       .deleteObject (mapKey userPath oldPath)]⟩
  else
    ⟨.ok, [.fileRenamed (mapKey userPath newPath) (mapKey userPath oldPath) username],
      [.copyObject (mapKey userPath oldPath) (mapKey userPath newPath),
       .deleteObject (mapKey userPath oldPath)]⟩

/-- The MKDIR handler: directory creation is disabled unconditionally. -/
def mkdirHandler (username dirPath : String) : SftpOutcome :=
  ⟨.permissionDenied, [.dirCreationBlocked username dirPath], []⟩

/-- The RMDIR handler: directory deletion is disabled unconditionally. -/
def rmdirHandler (username dirPath : String) : SftpOutcome :=
  ⟨.permissionDenied, [.dirDeletionBlocked username dirPath], []⟩

/-- Trailing separator trim at the top of the OPEN handler. -/
def jsTrimTrailing (filename : String) : String :=
  if jsEndsWith filename "\\" ∨ jsEndsWith filename "/" then jsDropRight filename 1
  else filename

/-- Decision of the access-control portion of a handler: an immediate
PERMISSION_DENIED with no store call, or proceeding to the store with the
mapped key. -/
inductive OpenDecision
  | denied
  | proceed (key : String)
deriving DecidableEq

/-- The checks the OPEN handler performs before its first store call: trailing
separator trim, access control, and the write-flag file-type rule (flag bit 2
is WRITE). Both rejections answer PERMISSION_DENIED without touching the
store. -/
def openAccessCheck (username userPath filename : String) (flags : Nat) : OpenDecision :=
  if ¬ isPathAllowed username (jsTrimTrailing filename) then .denied
  else if flags % 4 / 2 = 1 ∧ ¬ isFileTypeAllowed (jsTrimTrailing filename) then .denied
  else .proceed (mapKey userPath (jsTrimTrailing filename))

/-- The access-control prefix of the OPENDIR handler. -/
def opendirAccessCheck (username userPath dirPath : String) : OpenDecision :=
  if ¬ isPathAllowed username dirPath then .denied
  else .proceed (mapKey userPath dirPath)

/-- The access-control prefix of the STAT and LSTAT handlers. -/
def statAccessCheck (username userPath filePath : String) : OpenDecision :=
  if ¬ isPathAllowed username filePath then .denied
  else .proceed (mapKey userPath filePath)

-- ---------------------------------------------------------------------------
-- Helper lemmas
-- ---------------------------------------------------------------------------

/-- String append acts as list append on the underlying characters. -/
theorem data_append (a b : String) : (a ++ b).data = a.data ++ b.data := by
  cases a
  cases b
  rfl

/-- The path component _mapKey appends always holds at least one character. -/
theorem mapKeyPath_data_ne_nil (f : String) : (mapKeyPath f).data ≠ [] := by
  unfold mapKeyPath ensureLeadingSlash
  by_cases hq : jsStartsWith (⟨replBack (pathNormalize (mapSlashes f)).data⟩ : String) "/" = true
  · rw [if_pos hq]
    intro hnil
    unfold jsStartsWith at hq
    rw [hnil] at hq
    exact absurd hq (by decide)
  · rw [if_neg hq]
    intro hnil
    rw [data_append] at hnil
    rcases List.append_eq_nil.mp hnil with ⟨h1, _⟩
    exact absurd h1 (by decide)

/-- _mapKey always returns the (defaulted) user path concatenated with the
normalized, slash-prefixed virtual path. -/
theorem mapKey_eq (up f : String) :
    mapKey up f = (if up = "" then "users" else up) ++ mapKeyPath f := by
  unfold mapKey
  split
  · exact ite_self _
  · rfl

/-- Clamping equals the minimum of the requested length and the remainder. -/
theorem clampLen_eq_min (size off len : Nat) (h : off < size) :
    clampLen size off len = min len (size - off) := by
  unfold clampLen
  split <;> omega

/-- Every entry surviving de-duplication has a display name outside the seen
set the loop started from. -/
theorem mem_dedupAux (x : Entry) : ∀ (seen : List String) (l : List Entry),
    x ∈ dedupAux seen l → seen.contains x.filename = false := by
  intro seen l
  induction l generalizing seen with
  | nil => intro hx; simp [dedupAux] at hx
  | cons e rest ih =>
    intro hx
    unfold dedupAux at hx
    by_cases hc : seen.contains e.filename = true
    · rw [if_pos hc] at hx
      exact ih seen hx
    · rw [if_neg hc] at hx
      rcases List.mem_cons.mp hx with rfl | hx2
      · cases hcc : seen.contains x.filename with
        | false => rfl
        | true => exact absurd hcc hc
      · have h2 := ih (e.filename :: seen) hx2
        simp only [List.contains_cons, Bool.or_eq_false_iff] at h2
        exact h2.2

/-- The de-duplication loop emits pairwise distinct display names. -/
theorem dedupAux_nodup (l : List Entry) : ∀ seen : List String,
    ((dedupAux seen l).map (fun e => e.filename)).Nodup := by
  induction l with
  | nil => intro seen; simp [dedupAux]
  | cons e rest ih =>
    intro seen
    unfold dedupAux
    by_cases hc : seen.contains e.filename = true
    · rw [if_pos hc]
      exact ih seen
    · rw [if_neg hc]
      simp only [List.map_cons, List.nodup_cons]
      refine ⟨?_, ih (e.filename :: seen)⟩
      intro hmem
      rcases List.mem_map.mp hmem with ⟨x, hx, hfx⟩
      have h2 := mem_dedupAux x (e.filename :: seen) rest hx
      rw [hfx] at h2
      simp [List.contains_cons] at h2

-- ---------------------------------------------------------------------------
-- Claim C1 - protected-path policy for REMOVE and RENAME
-- ---------------------------------------------------------------------------

/-- Counterexample to claim C1 as stated: for the authenticated user alice the
path of her own ledgers folder is not in the protected set (the source
hardcodes the literal segment user), the access policy admits it, and REMOVE
proceeds to issue a DELETE for the mapped key and answers OK, not
PERMISSION_DENIED. -/
theorem claim1_counterexample :
    isProtectedPath "/alice/ledgers" = false ∧
    isPathAllowed "alice" "/alice/ledgers" = true ∧
    removeHandler "alice" "users/alice" "/alice/ledgers" true =
      ⟨.ok, [.fileDeleted "users/alice/alice/ledgers" "alice"],
        [.deleteObject "users/alice/alice/ledgers"]⟩ := by decide

/-- Claim C1 (corrected): the protected set consists of the literal paths
/ledgers, /invoices, /user/ledgers, /user/invoices (the segment user is fixed
text, not the session username) together with every path ending in
/ledgers/.directory or /invoices/.directory; for a target in that set, REMOVE
and RENAME (checked on its old path) respond PERMISSION_DENIED, emit the
corresponding blocked event, and issue no store call, leaving the target
object unchanged. -/
theorem claim1_amended_protected (username userPath filePath newPath : String)
    (c d : Bool) (h : isProtectedPath filePath = true) :
    removeHandler username userPath filePath d =
      ⟨.permissionDenied, [.protectedDeletionBlocked username filePath], []⟩ ∧
    renameHandler username userPath filePath newPath c d =
      ⟨.permissionDenied, [.protectedRenameBlocked username filePath newPath], []⟩ := by
  unfold removeHandler renameHandler
  constructor <;> simp [h]

/-- Witness for the amended claim C1 at the protected path /ledgers. -/
theorem claim1_witness :
    isProtectedPath "/ledgers" = true ∧
    (removeHandler "alice" "users/alice" "/ledgers" true =
      ⟨.permissionDenied, [.protectedDeletionBlocked "alice" "/ledgers"], []⟩ ∧
    renameHandler "alice" "users/alice" "/ledgers" "/old-books" true true =
      ⟨.permissionDenied, [.protectedRenameBlocked "alice" "/ledgers" "/old-books"], []⟩) :=
  ⟨by decide,
   claim1_amended_protected "alice" "users/alice" "/ledgers" "/old-books" true true (by decide)⟩

-- ---------------------------------------------------------------------------
-- Claim C2 - access policy enforcement per verb
-- ---------------------------------------------------------------------------

/-- Counterexample to claim C2 as stated: the access policy denies alice the
path /foo/bar, yet RENAME on it performs no policy check and issues the COPY
and DELETE store calls, answering OK. -/
theorem claim2_counterexample :
    isPathAllowed "alice" "/foo/bar" = false ∧
    renameHandler "alice" "users/alice" "/foo/bar" "/foo/baz" true true =
      ⟨.ok, [.fileRenamed "users/alice/foo/baz" "users/alice/foo/bar" "alice"],
        [.copyObject "users/alice/foo/bar" "users/alice/foo/baz",
         .deleteObject "users/alice/foo/bar"]⟩ := by decide

/-- Claim C2 (corrected): when the policy denies (U, p), the verbs that
consult it - OPEN, OPENDIR, STAT, LSTAT, REMOVE - respond PERMISSION_DENIED
and issue no store call before responding; RENAME, however, performs no
policy check: on any unprotected old path it proceeds to the store
regardless of the policy. -/
theorem claim2_amended_policy (username userPath p newPath : String) (flags : Nat)
    (c d : Bool) (h : isPathAllowed username p = false) :
    (jsTrimTrailing p = p → openAccessCheck username userPath p flags = .denied) ∧
    opendirAccessCheck username userPath p = .denied ∧
    statAccessCheck username userPath p = .denied ∧
    (removeHandler username userPath p d).status = .permissionDenied ∧
    (removeHandler username userPath p d).calls = [] ∧
    (isProtectedPath p = false →
      0 < (renameHandler username userPath p newPath c d).calls.length) := by
  refine ⟨?_, ?_, ?_, ?_, ?_, ?_⟩
  · intro ht
    unfold openAccessCheck
    rw [ht, h]
    simp
  · unfold opendirAccessCheck
    simp [h]
  · unfold statAccessCheck
    simp [h]
  · unfold removeHandler
    by_cases hp : isProtectedPath p = true <;> simp [hp, h]
  · unfold removeHandler
    by_cases hp : isProtectedPath p = true <;> simp [hp, h]
  · intro hp
    unfold renameHandler
    rw [hp]
    simp only [Bool.false_eq_true, if_false]
    split
    · simp
    · split <;> simp

/-- Witness for the amended claim C2 at user alice and path /foo/bar. -/
theorem claim2_witness :
    isPathAllowed "alice" "/foo/bar" = false ∧
    ((jsTrimTrailing "/foo/bar" = "/foo/bar" →
      openAccessCheck "alice" "users/alice" "/foo/bar" 2 = .denied) ∧
    opendirAccessCheck "alice" "users/alice" "/foo/bar" = .denied ∧
    statAccessCheck "alice" "users/alice" "/foo/bar" = .denied ∧
    (removeHandler "alice" "users/alice" "/foo/bar" true).status = .permissionDenied ∧
    (removeHandler "alice" "users/alice" "/foo/bar" true).calls = [] ∧
    (isProtectedPath "/foo/bar" = false →
      0 < (renameHandler "alice" "users/alice" "/foo/bar" "/foo/baz" true true).calls.length)) :=
  ⟨by decide,
   claim2_amended_policy "alice" "users/alice" "/foo/bar" "/foo/baz" 2 true true (by decide)⟩

-- ---------------------------------------------------------------------------
-- Claim C4 - MKDIR and RMDIR always rejected
-- ---------------------------------------------------------------------------

/-- Claim C4 (confirmed): every MKDIR and every RMDIR, for any user and any
path, responds PERMISSION_DENIED, emits the directory-creation-blocked
(respectively directory-deletion-blocked) event, and makes no store call. -/
theorem claim4_mkdir_rmdir_denied (username dirPath : String) :
    mkdirHandler username dirPath =
      ⟨.permissionDenied, [.dirCreationBlocked username dirPath], []⟩ ∧
    rmdirHandler username dirPath =
      ⟨.permissionDenied, [.dirDeletionBlocked username dirPath], []⟩ :=
  ⟨rfl, rfl⟩

/-- Witness for claim C4 at a concrete user and path. -/
theorem claim4_witness :
    mkdirHandler "alice" "/ledgers/2024" =
      ⟨.permissionDenied, [.dirCreationBlocked "alice" "/ledgers/2024"], []⟩ ∧
    rmdirHandler "alice" "/ledgers/2024" =
      ⟨.permissionDenied, [.dirDeletionBlocked "alice" "/ledgers/2024"], []⟩ :=
  claim4_mkdir_rmdir_denied "alice" "/ledgers/2024"

-- ---------------------------------------------------------------------------
-- Claim C5 - empty uploads never reach the store
-- ---------------------------------------------------------------------------

/-- Counterexample to claim C5 as stated: the upload-error raised for a
zero-byte upload carries the message Empty files are not allowed, not the
message quoted by the claim. -/
theorem claim5_counterexample :
    uploadFinalize [] "users/alice/ledgers/jan.pdf" =
      ⟨none, some "Empty files are not allowed"⟩ ∧
    (("Empty files are not allowed" == "empty files not allowed") = false) := by decide

/-- Claim C5 (corrected): a write handle closed after zero bytes of WRITE data
issues no PUT, records and emits an upload error whose message is
Empty files are not allowed, and its CLOSE response is FAILURE. -/
theorem claim5_amended_emptyUpload (chunks : List (List Nat)) (key : String)
    (h : chunks.flatten = []) :
    (uploadFinalize chunks key).put = none ∧
    (uploadFinalize chunks key).uploadError = some "Empty files are not allowed" ∧
    ∀ ok : Bool, closeWriteStatus (uploadFinalize chunks key) ok = .failure := by
  unfold uploadFinalize
  rw [h]
  refine ⟨rfl, rfl, ?_⟩
  intro ok
  rfl

/-- Witness for the amended claim C5 at a handle that received no data. -/
theorem claim5_witness :
    ([] : List (List Nat)).flatten = [] ∧
    ((uploadFinalize [] "users/alice/ledgers/jan.pdf").put = none ∧
    (uploadFinalize [] "users/alice/ledgers/jan.pdf").uploadError =
      some "Empty files are not allowed" ∧
    ∀ ok : Bool, closeWriteStatus (uploadFinalize [] "users/alice/ledgers/jan.pdf") ok =
      .failure) :=
  ⟨rfl, claim5_amended_emptyUpload [] "users/alice/ledgers/jan.pdf" rfl⟩

-- ---------------------------------------------------------------------------
-- Claim C6 - the PUT body is the concatenation of the writes
-- ---------------------------------------------------------------------------

/-- Claim C6 (confirmed): whenever closing a write handle issues a PUT, its
key is the mapped key, its body is the concatenation of the WRITE payloads in
receipt order, and its ContentLength is that body's length. -/
theorem claim6_put_body_concat (chunks : List (List Nat)) (key : String)
    (p : StorePut) (h : (uploadFinalize chunks key).put = some p) :
    p.key = key ∧ p.body = chunks.flatten ∧ p.contentLength = p.body.length := by
  by_cases h1 : (chunks.flatten).length = 0
  · rw [uploadFinalize, if_pos h1] at h
    exact absurd h (by simp)
  · by_cases h2 : ((jsContains (jsToLower key) "/ledgers/" = true ∨
        jsContains (jsToLower key) "/invoices/" = true) ∧
        ¬ jsEndsWith (jsToLower key) ".pdf" = true)
    · rw [uploadFinalize, if_neg h1, if_pos h2] at h
      exact absurd h (by simp)
    · rw [uploadFinalize, if_neg h1, if_neg h2] at h
      have hp := Option.some.inj h
      rw [← hp]
      exact ⟨rfl, rfl, rfl⟩

/-- Witness for claim C6 on two concrete writes. -/
theorem claim6_witness :
    (uploadFinalize [[1, 2], [3]] "users/alice/a.txt").put =
      some ⟨"users/alice/a.txt", [1, 2, 3], 3⟩ ∧
    ((⟨"users/alice/a.txt", [1, 2, 3], 3⟩ : StorePut).key = "users/alice/a.txt" ∧
     (⟨"users/alice/a.txt", [1, 2, 3], 3⟩ : StorePut).body = [[1, 2], [3]].flatten ∧
     (⟨"users/alice/a.txt", [1, 2, 3], 3⟩ : StorePut).contentLength =
       (⟨"users/alice/a.txt", [1, 2, 3], 3⟩ : StorePut).body.length) :=
  ⟨by decide,
   claim6_put_body_concat [[1, 2], [3]] "users/alice/a.txt"
     ⟨"users/alice/a.txt", [1, 2, 3], 3⟩ (by decide)⟩

-- ---------------------------------------------------------------------------
-- Claim C9 - empty credentials never probe the store
-- ---------------------------------------------------------------------------

/-- Claim C9 (confirmed): an authentication attempt with an empty or missing
username or password returns false without constructing a credential probe
key or issuing a HEAD request. -/
theorem claim9_auth_empty (username password : String) (store : String → HeadResult)
    (h : username = "" ∨ password = "") :
    authenticateUser username password store = (false, none) := by
  unfold authenticateUser
  rw [if_pos h]

/-- Witness for claim C9 with an empty username against a store that would
accept anything. -/
theorem claim9_witness :
    (("" : String) = "" ∨ ("secret" : String) = "") ∧
    authenticateUser "" "secret" (fun _ => HeadResult.found) = (false, none) :=
  ⟨Or.inl rfl, claim9_auth_empty "" "secret" (fun _ => HeadResult.found) (Or.inl rfl)⟩

-- ---------------------------------------------------------------------------
-- Claim C8 - READ clamping and EOF accounting
-- ---------------------------------------------------------------------------

/-- Counterexample to claim C8 as stated: a READ of length 0 at offset 0 on a
handle of size 5 has its offset strictly below the size, yet the server
answers EOF and issues no ranged GET, while the claim requires a GET for the
clamped range. -/
theorem claim8_counterexample :
    (0 : Nat) < 5 ∧
    readStep "users/alice/a.txt" ⟨5, false⟩ 0 0 true = (⟨5, false⟩, .eof, none) := by
  decide

/-- Claim C8 (corrected): on a handle not yet at EOF, a READ whose offset is
at least the recorded size answers EOF with no GET; otherwise the requested
length is clamped to the minimum of itself and size minus offset, and when
that clamp is zero the answer is again EOF with no GET; when it is positive a
ranged GET for exactly the clamped bytes is issued and the EOF flag is set
exactly when the clamped range reaches the size; a handle whose EOF flag is
set answers every further READ with EOF and no store call. -/
theorem claim8_amended_readClamp (key : String) (st : ReadState) (off len : Nat)
    (ok : Bool) (h : st.read = false) :
    (st.size ≤ off → readStep key st off len ok = (st, .eof, none)) ∧
    (off < st.size → min len (st.size - off) = 0 →
      readStep key st off len ok = (st, .eof, none)) ∧
    (off < st.size → 0 < min len (st.size - off) →
      readStep key st off len ok =
        ((if st.size ≤ off + min len (st.size - off) then ⟨st.size, true⟩ else st),
         (if ok then .dataResp else .failResp),
         some (.getObject key off (min len (st.size - off))))) ∧
    (∀ st2 : ReadState, st2.read = true →
      ∀ off2 len2 ok2, readStep key st2 off2 len2 ok2 = (st2, .eof, none)) := by
  refine ⟨?_, ?_, ?_, ?_⟩
  · intro hle
    unfold readStep
    rw [h]
    simp [hle]
  · intro hlt h0
    have hcl := clampLen_eq_min st.size off len hlt
    unfold readStep
    rw [h, hcl, h0]
    simp [Nat.not_le.mpr hlt]
  · intro hlt hpos
    have hcl := clampLen_eq_min st.size off len hlt
    unfold readStep
    rw [h, hcl]
    simp [Nat.not_le.mpr hlt, Nat.pos_iff_ne_zero.mp hpos]
  · intro st2 h2 off2 len2 ok2
    unfold readStep
    rw [h2]
    simp

/-- Witness for the amended claim C8 on a five-byte file read from offset 2
with a request overshooting the end. -/
theorem claim8_witness :
    ReadState.read ⟨5, false⟩ = false ∧
    (2 : Nat) < 5 ∧ (0 : Nat) < min 9 (5 - 2) ∧
    readStep "users/alice/a.txt" ⟨5, false⟩ 2 9 true =
      (⟨5, true⟩, .dataResp, some (.getObject "users/alice/a.txt" 2 3)) :=
  ⟨rfl, by decide, by decide,
   (claim8_amended_readClamp "users/alice/a.txt" ⟨5, false⟩ 2 9 true rfl).2.2.1
     (by decide) (by decide)⟩

-- ---------------------------------------------------------------------------
-- Claim C10 - the EOF flag is set before the final GET is dispatched
-- ---------------------------------------------------------------------------

/-- Claim C10 (confirmed): a final READ (one whose range reaches the recorded
size) sets the EOF flag on the handle state before the GET is dispatched, so
even when the GET fails and the client receives FAILURE, every subsequent READ
on the handle answers EOF without a store call. -/
theorem claim10_eof_before_get (key : String) (st : ReadState) (off len : Nat)
    (h1 : st.read = false) (h2 : off < st.size) (h3 : st.size ≤ off + len) :
    readStep key st off len false =
      (⟨st.size, true⟩, .failResp, some (.getObject key off (st.size - off))) ∧
    ∀ off2 len2 ok2, readStep key (⟨st.size, true⟩ : ReadState) off2 len2 ok2 =
      (⟨st.size, true⟩, .eof, none) := by
  constructor
  · have hcl : clampLen st.size off len = st.size - off := by
      unfold clampLen
      split <;> omega
    unfold readStep
    rw [h1, hcl]
    have hne : ¬ st.size - off = 0 := by omega
    have hset : st.size ≤ off + (st.size - off) := by omega
    simp [Nat.not_le.mpr h2, hne, hset]
  · intro off2 len2 ok2
    unfold readStep
    simp

/-- Witness for claim C10 on a three-byte file whose final GET fails. -/
theorem claim10_witness :
    ReadState.read ⟨3, false⟩ = false ∧ (1 : Nat) < 3 ∧ (3 : Nat) ≤ 1 + 9 ∧
    (readStep "users/alice/b.pdf" ⟨3, false⟩ 1 9 false =
      (⟨3, true⟩, .failResp, some (.getObject "users/alice/b.pdf" 1 2)) ∧
    ∀ off2 len2 ok2, readStep "users/alice/b.pdf" (⟨3, true⟩ : ReadState) off2 len2 ok2 =
      (⟨3, true⟩, .eof, none)) :=
  ⟨rfl, by decide, by decide,
   claim10_eof_before_get "users/alice/b.pdf" ⟨3, false⟩ 1 9 rfl (by decide) (by decide)⟩

-- ---------------------------------------------------------------------------
-- Claim C3 - virtual-root synthesis on OPENDIR of the root
-- ---------------------------------------------------------------------------

/-- Counterexample to claim C3 as stated: for alice, whose home holds the two
default subdirectory markers, OPENDIR of the root followed by READDIR yields
the two entries ledgers and invoices derived from the store LIST - not three
synthetic entries and no entry named alice. The replacement branch requires
the handle prefix to be the empty string, but the mapped prefix of the root is
users/alice/. -/
theorem claim3_counterexample :
    readdirEntries "alice" "users/alice" "/"
      [⟨"users/alice/ledgers/.directory", 33, false⟩,
       ⟨"users/alice/invoices/.directory", 34, false⟩] =
      [⟨"ledgers", 493, 0⟩, ⟨"invoices", 493, 0⟩] ∧
    mapKey "users/alice" "/" = "users/alice/" ∧
    rootEntries "alice" = [⟨"alice", 493, 0⟩, ⟨"ledgers", 493, 0⟩, ⟨"invoices", 493, 0⟩] ∧
    (decide (readdirEntries "alice" "users/alice" "/"
      [⟨"users/alice/ledgers/.directory", 33, false⟩,
       ⟨"users/alice/invoices/.directory", 34, false⟩] = rootEntries "alice") = false) := by
  decide

/-- Claim C3 (corrected): the three-synthetic-entry replacement fires only for
a directory handle whose stored prefix is the empty string, and the prefix
_mapKey stores is always non-empty (it extends the defaulted user base path),
so READDIR after OPENDIR of the root instead returns the de-duplicated entry
list derived from the store LIST of the home prefix of the user, as the
concrete instance shows. -/
theorem claim3_amended_rootListing :
    (∀ (username : String) (listings : List S3Obj),
      listDirEntries "" username listings = rootEntries username) ∧
    (∀ userPath dirPath : String, 0 < (mapKey userPath dirPath).data.length) ∧
    readdirEntries "alice" "users/alice" "/" [⟨"users/alice/notes.txt", 7, false⟩] =
      [⟨"notes.txt", 420, 7⟩] := by
  refine ⟨?_, ?_, by decide⟩
  · intro u l
    unfold listDirEntries
    rw [if_pos rfl]
  · intro up p
    rw [mapKey_eq, data_append, List.length_append]
    have hne : (mapKeyPath p).data ≠ [] := mapKeyPath_data_ne_nil p
    have : (mapKeyPath p).data.length ≠ 0 := by
      intro h0
      exact hne (List.eq_nil_of_length_eq_zero h0)
    omega

-- ---------------------------------------------------------------------------
-- Claim C7 - de-duplication and classification of listing entries
-- ---------------------------------------------------------------------------

/-- Counterexample to claim C7 as stated: with both the exact key and its
.directory marker present (in the lexicographic order a store LIST returns),
the processed listing holds a file classification and a directory
classification for the same display name d, and the emitted entry is the
file one (mode 420, octal 644), not the directory one - de-duplication keeps
the first entry, so the directory classification does not win. -/
theorem claim7_counterexample :
    processDirectoryListings
      [⟨"users/u/d", 5, false⟩, ⟨"users/u/d/.directory", 1, false⟩] "users/u/" =
      [⟨"users/u/d", 5, false⟩, ⟨"users/u/d", 1, true⟩] ∧
    listDirEntries "users/u/" "u"
      (processDirectoryListings
        [⟨"users/u/d", 5, false⟩, ⟨"users/u/d/.directory", 1, false⟩] "users/u/") =
      [⟨"d", 420, 5⟩] := by decide

/-- Claim C7 (corrected): directory listings are de-duplicated on display
name, keeping for every display name the first entry in listing order and
dropping every later entry with the same name, so the resulting names are
pairwise distinct; when a file classification and a directory classification
arise for the same name, the earlier-listed one is emitted - for an exact key
and its .directory marker the store lists the exact key first, so the file
classification wins. -/
theorem claim7_amended_dedup :
    (∀ l : List Entry, ((dedupEntries l).map (fun e => e.filename)).Nodup) ∧
    (∀ (e : Entry) (l : List Entry),
      dedupEntries (e :: l) = e :: dedupAux [e.filename] l ∧
      ∀ x ∈ dedupAux [e.filename] l, (x.filename == e.filename) = false) := by
  constructor
  · intro l
    exact dedupAux_nodup l []
  · intro e l
    constructor
    · unfold dedupEntries
      conv_lhs => rw [dedupAux]
      rw [if_neg (by simp)]
    · intro x hx
      have h2 := mem_dedupAux x [e.filename] l hx
      simpa [List.contains_cons] using h2
